import Mathlib

/-!
Shallow embedding of the squangle MySQL client's connect/fetch operation core
(`ConnectOperation.cpp`, `SyncMysqlClient`/`SyncConnection`, `FetchOperationImpl`),
with theorems checking the natural-language specification against it.

Durations are modelled in microseconds as `Nat` (std::chrono durations are
integral counts; 1ms = 1000us).
-/

namespace Squangle

/-- `OperationState` from the operation lifecycle: initial `Unstarted`,
terminal `Completed`. -/
inductive OperationState
  | Unstarted
  | Pending
  | Cancelling
  | Completed
deriving DecidableEq, Repr

/-- `OperationResult`, valid only once an operation is `Completed`. -/
inductive OperationResult
  | Succeeded
  | Failed
  | TimedOut
  | Cancelled
deriving DecidableEq, Repr

/-- The squangle-specific error codes referenced by the connect path
(`SquangleErrno` members used in `ConnectOperation.cpp`). -/
inductive SquangleErrno
  | SQ_INITIALIZATION_FAILED
  | SQ_ERRNO_CONN_TIMEOUT
  | SQ_ERRNO_CONN_TIMEOUT_LOOP_STALLED
deriving DecidableEq, Repr

/-- An errno value passed to `setAsyncClientError`: either the upstream MySQL
client error `CR_SERVER_LOST` or a squangle-specific code. -/
inductive ErrorCode
  | CR_SERVER_LOST
  | squangle (e : SquangleErrno)
deriving DecidableEq, Repr

/-! ## Cert-validation bridge (`ConnectOperationImpl::mysqlCertValidator`) -/

/-- Input to one invocation of the C cert-validator bridge:
whether `weak_from_this().lock()` yields a live operation, what the user
`CertValidatorCallback` returns, and the error string it leaves in
`errorMessage` (empty string when it sets none). -/
structure CertValidatorInput where
  upgradeSucceeds : Bool
  callbackResult : Bool
  callbackError : String
deriving DecidableEq, Repr

/-- Outcome of `mysqlCertValidator`: the `int` handed back to libmysql
(0 = validation ok, 1 = validation failed per the driver convention) and
whether `*errptr` was assigned the error string's pointer. -/
structure CertValidatorOutcome where
  retCode : Nat
  errptrAssigned : Bool
deriving DecidableEq, Repr

/-- `ConnectOperationImpl::mysqlCertValidator` (ConnectOperation.cpp:483-516):
if the weak back-reference cannot be upgraded it logs and returns 0;
otherwise it runs the user callback, maps `true` to 0 and `false` to 1, and
assigns `*errptr` exactly when the callback's error message is non-empty. -/
def mysqlCertValidator (inp : CertValidatorInput) : CertValidatorOutcome :=
  if !inp.upgradeSucceeds then
    { retCode := 0, errptrAssigned := false }
  else
    let result := if inp.callbackResult then 0 else 1
    { retCode := result, errptrAssigned := !inp.callbackError.isEmpty }

/-! ## Connect attempt loop
(`shouldCompleteOperation` / `attemptFailed` / `attemptSucceeded`) -/

/-- The `ConnectionOptions` fields the attempt loop reads: per-attempt
`timeout`, `totalTimeout` across attempts, and `connectAttempts`. -/
structure ConnOptions where
  timeout : Nat
  totalTimeout : Nat
  connectAttempts : Nat
deriving DecidableEq, Repr

/-- Modelled from the spec: `OperationImpl::hasOpElapsed(d)` is not under
src/; per the spec's attempt-loop rule it holds when the operation's total
elapsed time exceeds `d` ("total elapsed > totalTimeout + 1ms"). -/
def hasOpElapsed (elapsed bound : Nat) : Bool :=
  elapsed > bound

/-- `ConnectOperationImpl::shouldCompleteOperation` (ConnectOperation.cpp:144-153):
complete when `attempts_made_ >= connectAttempts`, or the result is
`Cancelled`, or the operation has been running longer than
`totalTimeout + 1ms`. `attemptsMade` is the already-incremented counter. -/
def shouldCompleteOperation (opts : ConnOptions) (attemptsMade : Nat)
    (elapsed : Nat) (result : OperationResult) : Bool :=
  if attemptsMade ≥ opts.connectAttempts || result == OperationResult.Cancelled then
    true
  else
    hasOpElapsed elapsed (opts.totalTimeout + 1000)

/-- Observable actions taken by the attempt loop, in program order. -/
inductive ConnEvent
  | logConnectCompleted (r : OperationResult)
  | cancelTcpTimeout
  | unregisterHandler
  | cancelTimeout
  | closeConnection
  | setTimeoutInternal (d : Nat)
  | specializedRun
  | completeOperation (r : OperationResult)
deriving DecidableEq, Repr

/-- The per-operation mutable state the attempt loop touches:
`attempts_made_`, the currently armed per-attempt timeout
(`OperationImpl`'s timeout), and the completion result once
`completeOperation` has run. -/
structure ConnAttemptState where
  attemptsMade : Nat
  currentTimeout : Nat
  completed : Option OperationResult
deriving DecidableEq, Repr

/-- `ConnectOperationImpl::attemptFailed` (ConnectOperation.cpp:155-177):
increment `attempts_made_`; if `shouldCompleteOperation` holds, complete with
`result`; otherwise log, cancel the TCP timeout, unregister the FD handler,
cancel the per-attempt timeout, close the connection, re-arm the timeout to
`min(timeout + opElapsed, totalTimeout)` and run `specializedRun` again.
`elapsed` is the operation's total elapsed time at this call. -/
def attemptFailed (opts : ConnOptions) (elapsed : Nat) (result : OperationResult)
    (s : ConnAttemptState) : ConnAttemptState × List ConnEvent :=
  let attempts := s.attemptsMade + 1
  if shouldCompleteOperation opts attempts elapsed result then
    ({ s with attemptsMade := attempts, completed := some result },
     [ConnEvent.completeOperation result])
  else
    let timeoutAttemptBased := opts.timeout + elapsed
    let newTimeout := min timeoutAttemptBased opts.totalTimeout
    ({ s with attemptsMade := attempts, currentTimeout := newTimeout },
     [ConnEvent.logConnectCompleted result,
      ConnEvent.cancelTcpTimeout,
      ConnEvent.unregisterHandler,
      ConnEvent.cancelTimeout,
      ConnEvent.closeConnection,
      ConnEvent.setTimeoutInternal newTimeout,
      ConnEvent.specializedRun])

/-- `ConnectOperationImpl::attemptSucceeded` (ConnectOperation.cpp:179-182):
increment `attempts_made_` and complete with `result`. -/
def attemptSucceeded (result : OperationResult) (s : ConnAttemptState) :
    ConnAttemptState × List ConnEvent :=
  ({ s with attemptsMade := s.attemptsMade + 1, completed := some result },
   [ConnEvent.completeOperation result])

/-- Initial attempt-loop state of a freshly constructed operation:
no attempts made, per-attempt timer from the options, not completed. -/
def initConnAttemptState (opts : ConnOptions) : ConnAttemptState :=
  { attemptsMade := 0
    currentTimeout := min opts.timeout opts.totalTimeout
    completed := none }

/-- The attempt-loop states a `ConnectOperation` can reach: starting from the
initial state, each failed attempt steps by `attemptFailed` (at some elapsed
time and failure result) and each successful attempt by `attemptSucceeded`;
no step happens after completion. -/
inductive ReachableAttemptState (opts : ConnOptions) : ConnAttemptState → Prop
  | init : ReachableAttemptState opts (initConnAttemptState opts)
  | stepFailed {s : ConnAttemptState} (elapsed : Nat) (result : OperationResult) :
      ReachableAttemptState opts s → s.completed = none →
      ReachableAttemptState opts (attemptFailed opts elapsed result s).1
  | stepSucceeded {s : ConnAttemptState} (result : OperationResult) :
      ReachableAttemptState opts s → s.completed = none →
      ReachableAttemptState opts (attemptSucceeded result s).1

/-! ## Timeout handling
(`specializedTimeoutTriggered` / `tcpConnectTimeoutTriggered` / `timeoutHandler`) -/

/-- Modelled from the spec: `kCallbackDelayStallThresholdUs` is declared
outside src/; the spec gives its default as 50 ms (in microseconds). -/
def kCallbackDelayStallThresholdUs : Nat := 50000

/-- One structural piece of the timeout error message built in
`timeoutHandler` (the bodies of `timeoutMessage`/`threadOverloadMessage` and
the format-string rendering live outside src/, so the parts are kept
structured rather than rendered to text). -/
inductive MsgPart
  | header (code : SquangleErrno) (isPool : Bool) (host : String) (port : Nat)
  | stage (stageName : String)
  | timeoutMsg (deltaMs : Nat)
  | overloadMsg (cbDelayUs : Nat)
  | tcpTimeoutTag (n : Nat)
deriving DecidableEq, Repr

/-- The per-call context `timeoutHandler` reads: the operation's elapsed
milliseconds, the event loop's average callback delay in microseconds, pool
flag, connection-key host/port, and the connect stage name. -/
structure TimeoutCtx where
  elapsedMs : Nat
  cbDelayUs : Nat
  isPoolConnection : Bool
  host : String
  port : Nat
  connectStageName : String
deriving DecidableEq, Repr

/-- What a timeout produces: the errno passed to `setAsyncClientError`, the
structured message parts joined into the error string, and the result the
handler forwards to `attemptFailed`. -/
structure TimeoutOutcome where
  errnoSet : ErrorCode
  message : List MsgPart
  attemptFailedResult : OperationResult
deriving DecidableEq, Repr

/-- `ConnectOperationImpl::timeoutHandler` (ConnectOperation.cpp:323-357):
pick `SQ_ERRNO_CONN_TIMEOUT_LOOP_STALLED` for the message header when the
callback-delay average is at least the stall threshold, else
`SQ_ERRNO_CONN_TIMEOUT`; assemble header, stage (non-pool only), took/timeout
message, overload message (stalled only) and the `(TcpTimeout:N)` tag; set the
async client error with errno `CR_SERVER_LOST`; call
`attemptFailed(TimedOut)`. -/
def timeoutHandler (ctx : TimeoutCtx) (isTcpTimeout : Bool) : TimeoutOutcome :=
  let stalled := ctx.cbDelayUs ≥ kCallbackDelayStallThresholdUs
  let code :=
    if stalled then SquangleErrno.SQ_ERRNO_CONN_TIMEOUT_LOOP_STALLED
    else SquangleErrno.SQ_ERRNO_CONN_TIMEOUT
  let parts :=
    [MsgPart.header code ctx.isPoolConnection ctx.host ctx.port] ++
    (if !ctx.isPoolConnection then [MsgPart.stage ctx.connectStageName] else []) ++
    [MsgPart.timeoutMsg ctx.elapsedMs] ++
    (if stalled then [MsgPart.overloadMsg ctx.cbDelayUs] else []) ++
    [MsgPart.tcpTimeoutTag (if isTcpTimeout then 1 else 0)]
  { errnoSet := ErrorCode.CR_SERVER_LOST
    message := parts
    attemptFailedResult := OperationResult.TimedOut }

/-- `ConnectOperationImpl::specializedTimeoutTriggered`
(ConnectOperation.cpp:312-314): the per-attempt timer always runs
`timeoutHandler(false)`. -/
def specializedTimeoutTriggered (ctx : TimeoutCtx) : TimeoutOutcome :=
  timeoutHandler ctx false

/-- `ConnectOperationImpl::tcpConnectTimeoutTriggered`
(ConnectOperation.cpp:316-321): run `timeoutHandler(true)` only when the TCP
handshake has not completed; otherwise do nothing. -/
def tcpConnectTimeoutTriggered (ctx : TimeoutCtx)
    (isDoneWithTcpHandShake : Bool) : Option TimeoutOutcome :=
  if !isDoneWithTcpHandShake then some (timeoutHandler ctx true) else none

/-! ## Option setters (`ConnectOperationImpl::set…` / `enable…`) -/

/-- The `ConnectionOptions` record fields written by the setters under
examination (`conn_options_`). -/
structure ConnOptionsRec where
  timeout : Nat
  totalTimeout : Nat
  queryTimeout : Nat
  connectTcpTimeout : Option Nat
  connectAttempts : Nat
  dscp : Option Nat
  sniServerName : Option String
  certValidationCallbackSet : Bool
  sslProviderSet : Bool
  resetConnBeforeClose : Bool
  delayedResetConn : Bool
  changeUser : Bool
deriving DecidableEq, Repr

/-- The slice of `ConnectOperationImpl` the setters touch: the operation
state (read by the `CHECK_THROW` guards), the options record, the
`OperationImpl` armed-timeout value (written by
`OperationImpl::setTimeout`), and `killOnQueryTimeout_`. -/
structure SetterState where
  opState : OperationState
  opts : ConnOptionsRec
  implTimeout : Nat
  killOnQueryTimeout : Bool
deriving DecidableEq, Repr

/-- `setDefaultQueryTimeout` (ConnectOperation.cpp:67-71): guarded by
`CHECK_THROW(state() == Unstarted, db::OperationStateException)` — the
`InvalidStateError`, modelled as `Except.error ()` — then sets
`conn_options_.queryTimeout`. -/
def setDefaultQueryTimeout (s : SetterState) (t : Nat) : Except Unit SetterState :=
  if s.opState = OperationState.Unstarted then
    Except.ok { s with opts := { s.opts with queryTimeout := t } }
  else Except.error ()

/-- `setSniServerName` (ConnectOperation.cpp:73-77): guarded; sets the SNI
server name. -/
def setSniServerName (s : SetterState) (sni : String) : Except Unit SetterState :=
  if s.opState = OperationState.Unstarted then
    Except.ok { s with opts := { s.opts with sniServerName := some sni } }
  else Except.error ()

/-- `enableResetConnBeforeClose` (ConnectOperation.cpp:79-81): no state
guard; sets the flag. -/
def enableResetConnBeforeClose (s : SetterState) : Except Unit SetterState :=
  Except.ok { s with opts := { s.opts with resetConnBeforeClose := true } }

/-- `enableDelayedResetConn` (ConnectOperation.cpp:83-85): no state guard;
sets the flag. -/
def enableDelayedResetConn (s : SetterState) : Except Unit SetterState :=
  Except.ok { s with opts := { s.opts with delayedResetConn := true } }

/-- `enableChangeUser` (ConnectOperation.cpp:87-89): no state guard; sets the
flag. -/
def enableChangeUser (s : SetterState) : Except Unit SetterState :=
  Except.ok { s with opts := { s.opts with changeUser := true } }

/-- `setCertValidationCallback` (ConnectOperation.cpp:91-99): guarded; stores
the callback in the options. -/
def setCertValidationCallback (s : SetterState) : Except Unit SetterState :=
  if s.opState = OperationState.Unstarted then
    Except.ok { s with opts := { s.opts with certValidationCallbackSet := true } }
  else Except.error ()

/-- `setTimeout` (ConnectOperation.cpp:101-104): no state guard; sets
`conn_options_.timeout` and the `OperationImpl` timeout to the same value. -/
def setTimeout (s : SetterState) (t : Nat) : Except Unit SetterState :=
  Except.ok { s with opts := { s.opts with timeout := t }, implTimeout := t }

/-- `setTcpTimeout` (ConnectOperation.cpp:106-108): no state guard; sets
`conn_options_.connectTcpTimeout`. -/
def setTcpTimeout (s : SetterState) (t : Nat) : Except Unit SetterState :=
  Except.ok { s with opts := { s.opts with connectTcpTimeout := some t } }

/-- `setTotalTimeout` (ConnectOperation.cpp:110-113): no state guard; sets
`conn_options_.totalTimeout` and the `OperationImpl` timeout to
`min(getTimeout(), total_timeout)` where `getTimeout()` is the current
`OperationImpl` timeout. -/
def setTotalTimeout (s : SetterState) (t : Nat) : Except Unit SetterState :=
  Except.ok { s with opts := { s.opts with totalTimeout := t },
                     implTimeout := min s.implTimeout t }

/-- `setConnectAttempts` (ConnectOperation.cpp:114-118): guarded; sets the
attempt budget. -/
def setConnectAttempts (s : SetterState) (n : Nat) : Except Unit SetterState :=
  if s.opState = OperationState.Unstarted then
    Except.ok { s with opts := { s.opts with connectAttempts := n } }
  else Except.error ()

/-- `setDscp` (ConnectOperation.cpp:120-124): guarded; sets the DSCP value. -/
def setDscp (s : SetterState) (d : Nat) : Except Unit SetterState :=
  if s.opState = OperationState.Unstarted then
    Except.ok { s with opts := { s.opts with dscp := some d } }
  else Except.error ()

/-- `setKillOnQueryTimeout` (ConnectOperation.cpp:126-130): guarded; sets the
member flag. -/
def setKillOnQueryTimeout (s : SetterState) (b : Bool) : Except Unit SetterState :=
  if s.opState = OperationState.Unstarted then
    Except.ok { s with killOnQueryTimeout := b }
  else Except.error ()

/-- `setSSLOptionsProvider` (ConnectOperation.cpp:137-142): guarded; stores
the provider in the options. -/
def setSSLOptionsProvider (s : SetterState) : Except Unit SetterState :=
  if s.opState = OperationState.Unstarted then
    Except.ok { s with opts := { s.opts with sslProviderSet := true } }
  else Except.error ()

/-! ## FetchOperationImpl accessors (`numQueriesExecuted` / `resultSize`) -/

/-- The slice of `FetchOperationImpl` its counter accessors read: the
operation state and the stored counters `num_queries_executed_` and
`total_result_size_`. -/
structure FetchOpState where
  opState : OperationState
  num_queries_executed : Nat
  total_result_size : Nat
deriving DecidableEq, Repr

/-- `FetchOperationImpl::numQueriesExecuted` (src/unnamed/part_000:248-252):
`CHECK_THROW(state() != Pending, OperationStateException)`, then return the
stored counter. -/
def numQueriesExecuted (s : FetchOpState) : Except Unit Nat :=
  if s.opState ≠ OperationState.Pending then Except.ok s.num_queries_executed
  else Except.error ()

/-- `FetchOperationImpl::resultSize` (src/unnamed/part_000:254-258):
`CHECK_THROW(state() != Unstarted, OperationStateException)`, then return the
stored counter. -/
def resultSize (s : FetchOpState) : Except Unit Nat :=
  if s.opState ≠ OperationState.Unstarted then Except.ok s.total_result_size
  else Except.error ()

/-! ## Synchronous client/connection verbs
(`SyncMysqlClient::runInThread`, `SyncConnection::notify`/`wait`/`runInThread`) -/

/-- `SyncMysqlClient::runInThread(fn, wait)` (src/unnamed/part_000:66-69):
invokes `fn` inline and returns true. `fn` is embedded as a state
transformer; the returned pair is (accepted, state after `fn`). -/
def SyncMysqlClient.runInThread {σ : Type} (fn : σ → σ) (s : σ) : Bool × σ :=
  (true, fn s)

/-- `SyncConnection::notify` (src/unnamed/part_000:135-137): a no-op. -/
def SyncConnection.notify {σ : Type} (s : σ) : σ := s

/-- `SyncConnection::wait` (src/unnamed/part_000:139-141): a no-op. -/
def SyncConnection.wait {σ : Type} (s : σ) : σ := s

/-- `SyncConnection::runInThread(fn)` (src/unnamed/part_000:148-151):
invokes `fn` inline and returns true. -/
def SyncConnection.runInThread {σ : Type} (fn : σ → σ) (s : σ) : Bool × σ :=
  (true, fn s)

/-! ## Client active-connection reference
(`ConnectOperationImpl` constructor / destructor / `removeClientReference`) -/

/-- The client-reference bookkeeping of one `ConnectOperationImpl`:
the `active_in_client_` flag plus counters of how many times the operation
has called `activeConnectionAdded` / `activeConnectionRemoved` on its
client. -/
structure ClientRefState where
  active_in_client : Bool
  addedCalls : Nat
  removedCalls : Nat
deriving DecidableEq, Repr

/-- `ConnectOperationImpl::ConnectOperationImpl` (ConnectOperation.cpp:21-32):
initializes `active_in_client_(true)` and calls
`mysql_client->activeConnectionAdded(conn_key_)` once. -/
def initClientRefState : ClientRefState :=
  { active_in_client := true, addedCalls := 1, removedCalls := 0 }

/-- `ConnectOperationImpl::removeClientReference`
(ConnectOperation.cpp:474-481): only when `active_in_client_` is set, clear
it and call `client().activeConnectionRemoved(conn_key_)`. -/
def removeClientReference (s : ClientRefState) : ClientRefState :=
  if s.active_in_client then
    { s with active_in_client := false, removedCalls := s.removedCalls + 1 }
  else
    s

/-! ## Theorems -/

/-- C1 (counterexample): the claim says the bridge returns validation
*failure* when the weak back-reference cannot be upgraded, but at the
concrete dead-operation input the code returns 0 — the very code it uses for
"validation ok" when a live callback returns true — not the failure code 1 it
uses when a live callback returns false. -/
theorem certValidator_deadOp_cex :
    (mysqlCertValidator
      { upgradeSucceeds := false, callbackResult := false, callbackError := "bad cert" }).retCode = 0 ∧
    (mysqlCertValidator
      { upgradeSucceeds := true, callbackResult := true, callbackError := "" }).retCode = 0 ∧
    (mysqlCertValidator
      { upgradeSucceeds := true, callbackResult := false, callbackError := "" }).retCode = 1 ∧
    (0 : Nat) ≠ 1 := by
  refine ⟨rfl, rfl, rfl, ?_⟩
  decide

/-- C1 (amended): when the weak back-reference cannot be upgraded the bridge
returns 0 (the code libmysql treats as validation success) and leaves
`errptr` untouched; otherwise it runs the user callback, returns 0 when the
callback returns true and 1 when it returns false, and assigns the error
string's pointer to `errptr` exactly when the callback's error string is
non-empty. -/
theorem certValidator_amended (inp : CertValidatorInput) :
    mysqlCertValidator inp =
      { retCode := if inp.upgradeSucceeds && !inp.callbackResult then 1 else 0
        errptrAssigned := inp.upgradeSucceeds && !inp.callbackError.isEmpty } := by
  unfold mysqlCertValidator
  cases h : inp.upgradeSucceeds <;> cases h2 : inp.callbackResult <;> simp [h, h2]

/-- `shouldCompleteOperation` holds exactly when the (already incremented)
attempt count has reached the budget, or the result is `Cancelled`, or the
operation has been running for more than `totalTimeout + 1ms`. -/
theorem shouldComplete_iff (opts : ConnOptions) (a elapsed : Nat)
    (result : OperationResult) :
    shouldCompleteOperation opts a elapsed result = true ↔
      (a ≥ opts.connectAttempts ∨ result = OperationResult.Cancelled ∨
        elapsed > opts.totalTimeout + 1000) := by
  unfold shouldCompleteOperation hasOpElapsed
  by_cases h1 : a ≥ opts.connectAttempts <;>
    by_cases h2 : result = OperationResult.Cancelled <;>
      by_cases h3 : elapsed > opts.totalTimeout + 1000 <;>
        simp [h1, h2, h3]

/-- C2: after `attemptFailed` increments `attempts_made_`, the operation
completes via `completeOperation(result)` exactly when the incremented count
is at least `connectAttempts`, or the result is `Cancelled`, or the total
elapsed time exceeds `totalTimeout + 1ms`; in every other case the events
instead end in a re-run of `specializedRun` (a retry). -/
theorem attemptFailed_completes_iff (opts : ConnOptions) (elapsed : Nat)
    (result : OperationResult) (s : ConnAttemptState) :
    (ConnEvent.completeOperation result ∈ (attemptFailed opts elapsed result s).2 ↔
      (s.attemptsMade + 1 ≥ opts.connectAttempts ∨ result = OperationResult.Cancelled ∨
        elapsed > opts.totalTimeout + 1000)) ∧
    (ConnEvent.specializedRun ∈ (attemptFailed opts elapsed result s).2 ↔
      ¬(s.attemptsMade + 1 ≥ opts.connectAttempts ∨ result = OperationResult.Cancelled ∨
        elapsed > opts.totalTimeout + 1000)) := by
  have h := shouldComplete_iff opts (s.attemptsMade + 1) elapsed result
  cases hc : shouldCompleteOperation opts (s.attemptsMade + 1) elapsed result with
  | true =>
      rw [hc] at h
      simp only [true_iff] at h
      simp [attemptFailed, hc, h]
  | false =>
      rw [hc] at h
      have hnot : ¬(s.attemptsMade + 1 ≥ opts.connectAttempts ∨
          result = OperationResult.Cancelled ∨
          elapsed > opts.totalTimeout + 1000) := by
        intro hcond
        exact absurd (h.mpr hcond) (by simp)
      simp [attemptFailed, hc, hnot]

/-- C3: whenever a failed attempt retries (`shouldCompleteOperation` is
false after the increment), the event sequence is: log the attempt, cancel
the TCP-handshake timer, unregister the FD handler, cancel the per-attempt
timeout, close the connection, re-arm the timeout to
`min(perAttemptTimeout + elapsed, totalTimeout)`, and only then run
`specializedRun` again; the re-armed value is also stored as the current
timeout and the operation stays uncompleted. -/
theorem attemptFailed_retry_path (opts : ConnOptions) (elapsed : Nat)
    (result : OperationResult) (s : ConnAttemptState)
    (h : shouldCompleteOperation opts (s.attemptsMade + 1) elapsed result = false) :
    (attemptFailed opts elapsed result s).2 =
      [ConnEvent.logConnectCompleted result,
       ConnEvent.cancelTcpTimeout,
       ConnEvent.unregisterHandler,
       ConnEvent.cancelTimeout,
       ConnEvent.closeConnection,
       ConnEvent.setTimeoutInternal (min (opts.timeout + elapsed) opts.totalTimeout),
       ConnEvent.specializedRun] ∧
    (attemptFailed opts elapsed result s).1.currentTimeout =
      min (opts.timeout + elapsed) opts.totalTimeout ∧
    (attemptFailed opts elapsed result s).1.completed = s.completed := by
  simp [attemptFailed, h]

/-- C3 witness: a concrete retrying failure — options
`{timeout := 1000, totalTimeout := 100000, connectAttempts := 3}`, first
attempt failing at 50us elapsed — takes exactly the retry path. -/
theorem attemptFailed_retry_path_witness :
    shouldCompleteOperation ⟨1000, 100000, 3⟩ (0 + 1) 50 OperationResult.Failed = false ∧
    ((attemptFailed ⟨1000, 100000, 3⟩ 50 OperationResult.Failed ⟨0, 1000, none⟩).2 =
      [ConnEvent.logConnectCompleted OperationResult.Failed,
       ConnEvent.cancelTcpTimeout,
       ConnEvent.unregisterHandler,
       ConnEvent.cancelTimeout,
       ConnEvent.closeConnection,
       ConnEvent.setTimeoutInternal (min (1000 + 50) 100000),
       ConnEvent.specializedRun] ∧
    (attemptFailed ⟨1000, 100000, 3⟩ 50 OperationResult.Failed ⟨0, 1000, none⟩).1.currentTimeout =
      min (1000 + 50) 100000 ∧
    (attemptFailed ⟨1000, 100000, 3⟩ 50 OperationResult.Failed ⟨0, 1000, none⟩).1.completed = none) :=
  ⟨by decide, attemptFailed_retry_path ⟨1000, 100000, 3⟩ 50 OperationResult.Failed
    ⟨0, 1000, none⟩ (by decide)⟩

/-- Invariant of the attempt loop: every reachable state respects the
`max 1 connectAttempts` bound, and while the operation is still running the
count is strictly below `connectAttempts` (or no attempt has happened yet). -/
theorem reachable_attempt_invariant (opts : ConnOptions) (s : ConnAttemptState)
    (h : ReachableAttemptState opts s) :
    s.attemptsMade ≤ max 1 opts.connectAttempts ∧
      (s.completed = none →
        s.attemptsMade < opts.connectAttempts ∨ s.attemptsMade = 0) := by
  induction h with
  | init =>
      refine ⟨?_, fun _ => Or.inr rfl⟩
      simp [initConnAttemptState]
  | @stepFailed s' elapsed result hr hnone ih =>
      have hb : s'.attemptsMade + 1 ≤ max 1 opts.connectAttempts := by
        rcases ih.2 hnone with hlt | hz
        · exact le_trans hlt (le_max_right 1 opts.connectAttempts)
        · rw [hz]; exact le_max_left 1 opts.connectAttempts
      cases hc : shouldCompleteOperation opts (s'.attemptsMade + 1) elapsed result with
      | true =>
          refine ⟨?_, ?_⟩
          · simpa [attemptFailed, hc] using hb
          · intro hcon
            simp [attemptFailed, hc] at hcon
      | false =>
          have hiff := shouldComplete_iff opts (s'.attemptsMade + 1) elapsed result
          rw [hc] at hiff
          have hlt : s'.attemptsMade + 1 < opts.connectAttempts := by
            by_contra hge
            have hge2 : s'.attemptsMade + 1 ≥ opts.connectAttempts := Nat.le_of_not_lt hge
            exact absurd (hiff.mpr (Or.inl hge2)) (by simp)
          refine ⟨?_, fun _ => Or.inl ?_⟩
          · simpa [attemptFailed, hc] using hb
          · simpa [attemptFailed, hc] using hlt
  | @stepSucceeded s' result hr hnone ih =>
      have hb : s'.attemptsMade + 1 ≤ max 1 opts.connectAttempts := by
        rcases ih.2 hnone with hlt | hz
        · exact le_trans hlt (le_max_right 1 opts.connectAttempts)
        · rw [hz]; exact le_max_left 1 opts.connectAttempts
      refine ⟨?_, ?_⟩
      · simpa [attemptSucceeded] using hb
      · intro hcon
        simp [attemptSucceeded] at hcon

/-- C7: every completed `ConnectOperation` satisfies
`attemptsMade ≤ max(1, connectAttempts)`, and each increment of
`attempts_made_` (in `attemptFailed` or `attemptSucceeded`) is immediately
followed by either a retry (`specializedRun` last) or completion
(`completeOperation` last). -/
theorem attempts_bounded (opts : ConnOptions) (s : ConnAttemptState)
    (r : OperationResult) (h : ReachableAttemptState opts s)
    (hc : s.completed = some r) :
    s.attemptsMade ≤ max 1 opts.connectAttempts ∧
    (∀ (elapsed : Nat) (res : OperationResult) (s' : ConnAttemptState),
      (attemptFailed opts elapsed res s').1.attemptsMade = s'.attemptsMade + 1 ∧
      ((attemptFailed opts elapsed res s').2.getLast? = some ConnEvent.specializedRun ∨
       (attemptFailed opts elapsed res s').2.getLast? =
         some (ConnEvent.completeOperation res))) ∧
    (∀ (res : OperationResult) (s' : ConnAttemptState),
      (attemptSucceeded res s').1.attemptsMade = s'.attemptsMade + 1 ∧
      (attemptSucceeded res s').2 = [ConnEvent.completeOperation res]) := by
  refine ⟨(reachable_attempt_invariant opts s h).1, ?_, ?_⟩
  · intro elapsed res s'
    cases hc2 : shouldCompleteOperation opts (s'.attemptsMade + 1) elapsed res with
    | true =>
        refine ⟨by simp [attemptFailed, hc2], Or.inr ?_⟩
        simp [attemptFailed, hc2]
    | false =>
        refine ⟨by simp [attemptFailed, hc2], Or.inl ?_⟩
        simp [attemptFailed, hc2]
  · intro res s'
    exact ⟨rfl, rfl⟩

/-- C7 witness: a concrete operation (budget 3) that succeeds on its first
attempt is completed with one attempt made, within the bound. -/
theorem attempts_bounded_witness :
    ((attemptSucceeded OperationResult.Succeeded
        (initConnAttemptState ⟨1000, 100000, 3⟩)).1.completed =
      some OperationResult.Succeeded) ∧
    (attemptSucceeded OperationResult.Succeeded
        (initConnAttemptState ⟨1000, 100000, 3⟩)).1.attemptsMade ≤
      max 1 (3 : Nat) :=
  ⟨rfl,
    (attempts_bounded ⟨1000, 100000, 3⟩
      (attemptSucceeded OperationResult.Succeeded
        (initConnAttemptState ⟨1000, 100000, 3⟩)).1
      OperationResult.Succeeded
      (ReachableAttemptState.stepSucceeded OperationResult.Succeeded
        ReachableAttemptState.init rfl)
      rfl).1⟩

/-- C4 (counterexample): at a stall-attributed timeout (callback-delay
average 60ms ≥ the 50ms threshold) the message's bracketed code is
`SQ_ERRNO_CONN_TIMEOUT_LOOP_STALLED`, but the errno the operation reports
through `setAsyncClientError` is `CR_SERVER_LOST`, not the stall code the
claim asserts. -/
theorem timeoutHandler_errno_cex :
    (60000 : Nat) ≥ kCallbackDelayStallThresholdUs ∧
    (timeoutHandler
      { elapsedMs := 5000, cbDelayUs := 60000, isPoolConnection := false,
        host := "h", port := 3306, connectStageName := "s" } false).message.head? =
      some (MsgPart.header SquangleErrno.SQ_ERRNO_CONN_TIMEOUT_LOOP_STALLED
        false "h" 3306) ∧
    (timeoutHandler
      { elapsedMs := 5000, cbDelayUs := 60000, isPoolConnection := false,
        host := "h", port := 3306, connectStageName := "s" } false).errnoSet =
      ErrorCode.CR_SERVER_LOST ∧
    ErrorCode.CR_SERVER_LOST ≠
      ErrorCode.squangle SquangleErrno.SQ_ERRNO_CONN_TIMEOUT_LOOP_STALLED := by
  refine ⟨by decide, rfl, rfl, by decide⟩

/-- C4 (amended): when a connect timeout fires, the error code embedded in
the timeout message is `SQ_ERRNO_CONN_TIMEOUT_LOOP_STALLED` when the event
loop's callback-delay average is at least the stall threshold (default 50ms)
and `SQ_ERRNO_CONN_TIMEOUT` otherwise; the errno the operation reports via
`setAsyncClientError` is `CR_SERVER_LOST` in both cases (the stall code
appears only in the message text), and the handler forwards `TimedOut`. -/
theorem timeoutHandler_code_selection (ctx : TimeoutCtx) (isTcp : Bool) :
    (timeoutHandler ctx isTcp).message.head? =
      some (MsgPart.header
        (if ctx.cbDelayUs ≥ kCallbackDelayStallThresholdUs
          then SquangleErrno.SQ_ERRNO_CONN_TIMEOUT_LOOP_STALLED
          else SquangleErrno.SQ_ERRNO_CONN_TIMEOUT)
        ctx.isPoolConnection ctx.host ctx.port) ∧
    (timeoutHandler ctx isTcp).errnoSet = ErrorCode.CR_SERVER_LOST ∧
    (timeoutHandler ctx isTcp).attemptFailedResult = OperationResult.TimedOut := by
  refine ⟨?_, rfl, rfl⟩
  unfold timeoutHandler
  by_cases h : ctx.cbDelayUs ≥ kCallbackDelayStallThresholdUs <;> simp [h]

/-- Every timeout message ends in the `(TcpTimeout:N)` tag, with N = 1 for
the TCP-handshake timer and N = 0 for the per-attempt timer. -/
theorem timeoutHandler_last_tag (ctx : TimeoutCtx) (isTcp : Bool) :
    (timeoutHandler ctx isTcp).message.getLast? =
      some (MsgPart.tcpTimeoutTag (if isTcp then 1 else 0)) := by
  unfold timeoutHandler
  by_cases h1 : ctx.cbDelayUs ≥ kCallbackDelayStallThresholdUs <;>
    cases h2 : ctx.isPoolConnection <;>
      simp [h1, h2]

/-- C5: the TCP-handshake timer produces a timeout only when the TCP
handshake has not completed, and then its message carries the
`(TcpTimeout:1)` tag; the per-attempt timer's message carries
`(TcpTimeout:0)`; both route the failure through `attemptFailed(TimedOut)`,
so the connect retry policy applies to both. -/
theorem timeout_routing (ctx : TimeoutCtx) (done : Bool) :
    (tcpConnectTimeoutTriggered ctx done =
      if done then none else some (timeoutHandler ctx true)) ∧
    (∀ out ∈ tcpConnectTimeoutTriggered ctx done,
      out.message.getLast? = some (MsgPart.tcpTimeoutTag 1) ∧
      out.attemptFailedResult = OperationResult.TimedOut) ∧
    (specializedTimeoutTriggered ctx).message.getLast? =
      some (MsgPart.tcpTimeoutTag 0) ∧
    (specializedTimeoutTriggered ctx).attemptFailedResult =
      OperationResult.TimedOut := by
  refine ⟨?_, ?_, ?_, rfl⟩
  · cases done <;> rfl
  · intro out hmem
    cases done with
    | true => simp [tcpConnectTimeoutTriggered] at hmem
    | false =>
        simp [tcpConnectTimeoutTriggered] at hmem
        subst hmem
        exact ⟨by simpa using timeoutHandler_last_tag ctx true, rfl⟩
  · simpa using timeoutHandler_last_tag ctx false

/-- C5 witness: at a concrete context with the TCP handshake still
incomplete, the TCP timer fires and its message ends with the
`(TcpTimeout:1)` tag and forwards `TimedOut`. -/
theorem timeout_routing_witness :
    (timeoutHandler
      { elapsedMs := 10, cbDelayUs := 0, isPoolConnection := false,
        host := "h", port := 1, connectStageName := "s" } true).message.getLast? =
      some (MsgPart.tcpTimeoutTag 1) ∧
    (timeoutHandler
      { elapsedMs := 10, cbDelayUs := 0, isPoolConnection := false,
        host := "h", port := 1, connectStageName := "s" } true).attemptFailedResult =
      OperationResult.TimedOut :=
  (timeout_routing
    { elapsedMs := 10, cbDelayUs := 0, isPoolConnection := false,
      host := "h", port := 1, connectStageName := "s" } false).2.1
    (timeoutHandler
      { elapsedMs := 10, cbDelayUs := 0, isPoolConnection := false,
        host := "h", port := 1, connectStageName := "s" } true)
    rfl

/-- A concrete `ConnectOperationImpl` slice whose operation state is
`Pending`, i.e. observed after `run()`. -/
def examplePendingState : SetterState :=
  { opState := OperationState.Pending
    opts :=
      { timeout := 1000, totalTimeout := 100000, queryTimeout := 0,
        connectTcpTimeout := none, connectAttempts := 1, dscp := none,
        sniServerName := none, certValidationCallbackSet := false,
        sslProviderSet := false, resetConnBeforeClose := false,
        delayedResetConn := false, changeUser := false }
    implTimeout := 1000
    killOnQueryTimeout := false }

/-- C6 (counterexample): `enableResetConnBeforeClose`,
`enableDelayedResetConn` and `enableChangeUser` — all named by the claim —
succeed on a `Pending` (post-`run()`) operation instead of failing with
`InvalidStateError`: they carry no state guard. -/
theorem setters_enable_no_guard_cex :
    examplePendingState.opState ≠ OperationState.Unstarted ∧
    enableResetConnBeforeClose examplePendingState ≠ Except.error () ∧
    enableDelayedResetConn examplePendingState ≠ Except.error () ∧
    enableChangeUser examplePendingState ≠ Except.error () := by
  refine ⟨by decide, ?_, ?_, ?_⟩ <;> intro h <;> exact Except.noConfusion h

/-- C6 (amended): the guarded setters (`setConnectAttempts`, `setDscp`,
`setKillOnQueryTimeout`, `setCertValidationCallback`, `setSniServerName`,
`setDefaultQueryTimeout`, `setSSLOptionsProvider`) succeed exactly when the
operation is still `Unstarted` and fail with `InvalidStateError` otherwise;
`setTimeout` and `setTotalTimeout` never fail and recompute the armed
per-attempt deadline (to the new timeout, resp. to
`min(currentDeadline, totalTimeout)`); and `enableResetConnBeforeClose`,
`enableDelayedResetConn`, `enableChangeUser` and `setTcpTimeout` perform no
state check and succeed in every state. -/
theorem setters_guard_behavior (s : SetterState) (t n d : Nat) (sni : String)
    (b : Bool) :
    ((∃ s2, setDefaultQueryTimeout s t = Except.ok s2) ↔
      s.opState = OperationState.Unstarted) ∧
    ((∃ s2, setSniServerName s sni = Except.ok s2) ↔
      s.opState = OperationState.Unstarted) ∧
    ((∃ s2, setCertValidationCallback s = Except.ok s2) ↔
      s.opState = OperationState.Unstarted) ∧
    ((∃ s2, setConnectAttempts s n = Except.ok s2) ↔
      s.opState = OperationState.Unstarted) ∧
    ((∃ s2, setDscp s d = Except.ok s2) ↔
      s.opState = OperationState.Unstarted) ∧
    ((∃ s2, setKillOnQueryTimeout s b = Except.ok s2) ↔
      s.opState = OperationState.Unstarted) ∧
    ((∃ s2, setSSLOptionsProvider s = Except.ok s2) ↔
      s.opState = OperationState.Unstarted) ∧
    setTimeout s t =
      Except.ok { s with opts := { s.opts with timeout := t }, implTimeout := t } ∧
    setTotalTimeout s t =
      Except.ok { s with opts := { s.opts with totalTimeout := t },
                         implTimeout := min s.implTimeout t } ∧
    enableResetConnBeforeClose s =
      Except.ok { s with opts := { s.opts with resetConnBeforeClose := true } } ∧
    enableDelayedResetConn s =
      Except.ok { s with opts := { s.opts with delayedResetConn := true } } ∧
    enableChangeUser s =
      Except.ok { s with opts := { s.opts with changeUser := true } } ∧
    setTcpTimeout s t =
      Except.ok { s with opts := { s.opts with connectTcpTimeout := some t } } := by
  by_cases h : s.opState = OperationState.Unstarted <;>
    simp [setDefaultQueryTimeout, setSniServerName, setCertValidationCallback,
      setConnectAttempts, setDscp, setKillOnQueryTimeout, setSSLOptionsProvider,
      setTimeout, setTotalTimeout, enableResetConnBeforeClose,
      enableDelayedResetConn, enableChangeUser, setTcpTimeout, h]

/-- C8: `numQueriesExecuted` raises `InvalidStateError` exactly when the
operation state is `Pending` and otherwise returns the stored
`num_queries_executed_`; `resultSize` raises exactly when the state is
`Unstarted` and otherwise returns the stored `total_result_size_`. -/
theorem fetch_accessor_guards (s : FetchOpState) :
    (numQueriesExecuted s =
      if s.opState = OperationState.Pending then Except.error ()
      else Except.ok s.num_queries_executed) ∧
    (resultSize s =
      if s.opState = OperationState.Unstarted then Except.error ()
      else Except.ok s.total_result_size) := by
  constructor
  · unfold numQueriesExecuted
    by_cases h : s.opState = OperationState.Pending <;> simp [h]
  · unfold resultSize
    by_cases h : s.opState = OperationState.Unstarted <;> simp [h]

/-- C9: the synchronous variant's `runInThread` (both on the client and on
the connection) invokes the task inline and always returns true, and
`wait`/`notify` leave the state untouched, so an operation driven through
these verbs runs its state machine to completion inline. -/
theorem sync_verbs_inline {σ : Type} (fn : σ → σ) (s : σ) :
    SyncMysqlClient.runInThread fn s = (true, fn s) ∧
    SyncConnection.runInThread fn s = (true, fn s) ∧
    SyncConnection.wait s = s ∧
    SyncConnection.notify s = s :=
  ⟨rfl, rfl, rfl, rfl⟩

/-- Any positive number of `removeClientReference` calls starting from the
constructed state collapses to the single-removal state: the first call
clears `active_in_client_` and performs the removal, every later call is a
no-op. -/
theorem iterate_removeClientReference (n : Nat) :
    Nat.iterate removeClientReference (n + 1) initClientRefState =
      { active_in_client := false, addedCalls := 1, removedCalls := 1 } := by
  induction n with
  | zero => rfl
  | succ k ih =>
      rw [Function.iterate_succ_apply', ih]
      rfl

/-- C10: no matter how many times `removeClientReference` runs over the
operation's lifetime (the destructor guarantees at least one call, and
`specializedRunImpl`/`specializedCompleteOperation` may add more), the
client's `activeConnectionRemoved` is invoked exactly once — balancing the
single `activeConnectionAdded` from the constructor — because
`active_in_client_` makes removal idempotent. -/
theorem client_reference_removed_once (n : Nat) :
    (Nat.iterate removeClientReference (n + 1) initClientRefState).removedCalls = 1 ∧
    (Nat.iterate removeClientReference (n + 1) initClientRefState).removedCalls =
      initClientRefState.addedCalls := by
  rw [iterate_removeClientReference n]
  exact ⟨rfl, rfl⟩

end Squangle

